import Mathlib

/-!
Verification development for the USTB-QGXF auto-trainer.

The definitions below are a shallow embedding of `Main.py` (classes
`QiangGuoXianFengAPI` and `AutoTrainer`) and `src/data/Question.py`.
Python strings are embedded as `List Char`, Python integers as `ℤ` (or `ℕ`
where the source value is a count), parsed JSON values as the inductive
`JsonVal`, and raised exceptions as `Except` error values.  Network calls
are abstracted by oracle functions giving the transport outcome of each
attempt; wall-clock sleeping (`time.sleep`) has no observable effect in
this model and is elided.
-/

/-- Parsed JSON values, modelling what Python `json.loads` returns. -/
inductive JsonVal : Type where
  | null : JsonVal
  | int : ℤ → JsonVal
  | str : String → JsonVal
  | list : List JsonVal → JsonVal
  | dict : List (String × JsonVal) → JsonVal

/-- `d.get(k)` on a Python dict (first binding wins, keys are unique). -/
def dictGet (fields : List (String × JsonVal)) (k : String) : Option JsonVal :=
  List.lookup k fields

/-- Python truthiness of a JSON value, as used by
`if r_full.get('msg')` in `QiangGuoXianFengAPI._send`. -/
def jsonTruthy : JsonVal → Bool
  | .null => false
  | .int n => decide (n ≠ 0)
  | .str s => decide (s ≠ "")
  | .list l => !l.isEmpty
  | .dict d => !d.isEmpty

/-- The `msg` part attached to `InvalidRequestError`: the source appends
`r_full.get('msg')` only when it is truthy. -/
def truthyMsg (fields : List (String × JsonVal)) : Option JsonVal :=
  match dictGet fields ("msg") with
  | some v => if jsonTruthy v then some v else none
  | none => none

/-- Outcome of one invocation of the HTTP transport
(`requests.get` / `requests.post`):
either an `IOError`-class failure (network trouble or timeout;
`requests.RequestException` derives from `IOError`), or an HTTP response
with a status code and a body.  `body = none` models a response text that
is not valid JSON (`json.loads` raises a `ValueError`). -/
inductive TransportResult : Type where
  | ioError : TransportResult
  | response (status : ℕ) (body : Option JsonVal) : TransportResult

/-- The exceptions `QiangGuoXianFengAPI._send` can raise. -/
inductive SendExc : Type where
  | ioError : SendExc                                    -- re-raised IOError (`no_retry` path)
  | httpStatusError (status : ℕ) : SendExc               -- RuntimeError for a non-200 status
  | jsonDecodeError : SendExc                            -- ValueError from json.loads
  | invalidSchema : SendExc                              -- RuntimeError for a malformed envelope
  | permissionError (msg : JsonVal) : SendExc            -- code 10002
  | unauthorizedError (msg : JsonVal) : SendExc          -- code 10003
  | invalidRequestError (code : ℤ) (msg : Option JsonVal) : SendExc  -- any other code
  | maxRetriesExceeded : SendExc                         -- RuntimeError after the loop

/-- The body of one loop iteration of `_send` once the transport returned an
HTTP response (source lines 69-88): non-200 raises a `RuntimeError`, then the
envelope is schema-checked and its `code` field dispatched. -/
def sendAttempt (status : ℕ) (body : Option JsonVal) : Except SendExc (Option JsonVal) :=
  if status ≠ 200 then .error (.httpStatusError status)
  else
    match body with
    | none => .error .jsonDecodeError
    | some j =>
      match j with
      | .dict fields =>
        match dictGet fields ("code") with
        | some (.int c) =>
          if c = 99999 then .ok (dictGet fields ("data"))
          else if c = 10002 then
            .error (.permissionError ((dictGet fields ("msg")).getD (.str ("No permission"))))
          else if c = 10003 then
            .error (.unauthorizedError ((dictGet fields ("msg")).getD (.str ("Unauthorized request"))))
          else .error (.invalidRequestError c (truthyMsg fields))
        | _ => .error .invalidSchema
      | _ => .error .invalidSchema

/-- The retry loop of `_send` (`for _ in range(max(1, self._max_retries))`).
`transport i` is the outcome of the i-th transport invocation.  Only an
`IOError` is caught and retried (after `time.sleep(self._retry_delay)`,
elided here); every exception raised from the response handling propagates
immediately.  Falling out of the loop raises
`RuntimeError("Max retires exceeded")`.  The second component of the result
counts the transport invocations actually made. -/
def sendLoop (transport : ℕ → TransportResult) (no_retry : Bool) :
    ℕ → ℕ → Except SendExc (Option JsonVal) × ℕ
  | 0, i => (.error .maxRetriesExceeded, i)
  | k + 1, i =>
    match transport i with
    | .ioError =>
      if no_retry then (.error .ioError, i + 1)
      else sendLoop transport no_retry k (i + 1)
    | .response status body => (sendAttempt status body, i + 1)

/-- `QiangGuoXianFengAPI._send`, with the attempt budget clamped as in the
source (`max(1, ...)` both in `__init__` and in the loop header). -/
def send (transport : ℕ → TransportResult) (max_retries : ℕ) (no_retry : Bool) :
    Except SendExc (Option JsonVal) × ℕ :=
  sendLoop transport no_retry (max 1 max_retries) 0

/-- The exceptions `QiangGuoXianFengAPI._fetch_pagination` can raise. -/
inductive FetchExc : Type where
  | sendExc (e : SendExc) : FetchExc    -- propagated out of `_send`
  | assertionError : FetchExc           -- `assert isinstance(d, dict)`
  | keyError : FetchExc                 -- `d["list"]` with the key absent

/-- The `while page_num <= max_page_num` loop of `_fetch_pagination`.
`send1 pn` is what `_send` returns for the request whose payload carries
`pageNum = pn` (and `pageSize = page_size`).  The fuel argument is the
number of loop iterations still permitted by `max_page_num`; the second
component of the result counts the `_send` calls made. -/
def fetchLoop (send1 : ℕ → Except SendExc (Option JsonVal)) (page_size : ℕ) :
    ℕ → ℕ → List JsonVal → Except FetchExc (List JsonVal) × ℕ
  | 0, _, rst => (.ok rst, 0)
  | fuel + 1, page_num, rst =>
    match send1 page_num with
    | .error e => (.error (.sendExc e), 1)
    | .ok d =>
      match d with
      | some (.dict fields) =>
        match dictGet fields ("list") with
        | none => (.error .keyError, 1)
        | some (.list li) =>
          if li.length < page_size then (.ok (rst ++ li), 1)
          else
            let r := fetchLoop send1 page_size fuel (page_num + 1) (rst ++ li)
            (r.1, r.2 + 1)
        | some _ => (.ok rst, 1)
      | _ => (.error .assertionError, 1)

/-- `QiangGuoXianFengAPI._fetch_pagination`: `page_num` starts at 1, the
accumulator starts empty. -/
def fetch_pagination (send1 : ℕ → Except SendExc (Option JsonVal))
    (page_size max_page_num : ℕ) : Except FetchExc (List JsonVal) × ℕ :=
  fetchLoop send1 page_size max_page_num 1 []

/-- Concatenation of the pages `pages pn, pages (pn+1), ..., pages (pn+k-1)`;
used to describe the accumulator built by `fetchLoop`. -/
def pagesConcat (pages : ℕ → List JsonVal) : ℕ → ℕ → List JsonVal
  | _, 0 => []
  | pn, k + 1 => pages pn ++ pagesConcat pages (pn + 1) k

/-- A remote whose page `pn` answers the envelope
`{"list": pages pn}` (already unwrapped by `_send`). -/
def remoteOf (pages : ℕ → List JsonVal) : ℕ → Except SendExc (Option JsonVal) :=
  fun pn => .ok (some (.dict [("list", .list (pages pn))]))

/-- Python `str.split(sep)` for a one-character separator, on strings
embedded as `List Char` (so `"".split(":") = [""]`,
`"x:".split(":") = ["x", ""]`). -/
def pySplit (sep : Char) : List Char → List (List Char)
  | [] => [[]]
  | c :: rest =>
    if c = sep then [] :: pySplit sep rest
    else
      match pySplit sep rest with
      | [] => [[c]]
      | g :: gs => (c :: g) :: gs

/-- Decimal digits of `n`, least significant first; the first argument is
structural fuel (`n` itself suffices). -/
def toDecRev : ℕ → ℕ → List ℕ
  | 0, _ => []
  | fuel + 1, n => if n = 0 then [] else n % 10 :: toDecRev fuel (n / 10)

/-- Python `str(n)` for a natural number, as a list of characters. -/
def natRepr (n : ℕ) : List Char :=
  if n = 0 then ['0'] else (toDecRev n n).reverse.map (fun d => Char.ofNat (48 + d))

/-- Python format spec `{:02}`: pad with zeros on the left to width 2. -/
def fmt02 (n : ℕ) : List Char :=
  if (natRepr n).length < 2 then List.replicate (2 - (natRepr n).length) '0' ++ natRepr n
  else natRepr n

/-- `AutoTrainer._second_to_hhmmss`, embedded at integer seconds
(`round(second)` on an exact integer is the identity):
`f"{h:02}:{m:02}:{s:02}"` with `h = second // 3600`,
`m = second % 3600 // 60`, `s = second % 60`. -/
def second_to_hhmmss (second : ℕ) : List Char :=
  fmt02 (second / 3600) ++ ':' :: (fmt02 (second % 3600 / 60) ++ ':' :: fmt02 (second % 60))

/-- Digit-string to number; `none` models the `ValueError` that Python
`int()` raises on a malformed literal. -/
def parseDigits : List Char → Option ℕ
  | [] => none
  | cs =>
    if cs.all (fun c => c.isDigit) then
      some (cs.foldl (fun acc c => 10 * acc + (c.toNat - 48)) 0)
    else none

/-- Python `int(s)` on an embedded string: an optional sign followed by
decimal digits. -/
def pyInt : List Char → Option ℤ
  | '-' :: rest => (parseDigits rest).map (fun n => -(n : ℤ))
  | s => (parseDigits s).map (fun n => (n : ℤ))

/-- `map(int, fields)` evaluated on the (at most three) fields that
`zip(units, ...)` actually pulls; the first `ValueError` propagates. -/
def parseFields : List (List Char) → Option (List ℤ)
  | [] => some []
  | f :: fs =>
    match pyInt f with
    | none => none
    | some v =>
      match parseFields fs with
      | none => none
      | some vs => some (v :: vs)

/-- `AutoTrainer._hhmmss_to_second`: an empty (falsy) string yields 0;
otherwise `sum(round(x * y) for x, y in zip((3600, 60, 1), map(int,
hhmmss.split(":"))))`.  Lazy `zip` against the three units parses only the
first `min 3` fields; `round` on an integer product is the identity. -/
def hhmmss_to_second (hhmmss : List Char) : Option ℤ :=
  if hhmmss = [] then some 0
  else
    match parseFields ((pySplit ':' hhmmss).take 3) with
    | none => none
    | some fields =>
      some (((List.zip [(3600 : ℤ), 60, 1] fields).map (fun p => p.1 * p.2)).sum)

/-- `src/data/Question.py` class `Answer` (comparison methods included
below as `Question`-side operations on `PyObj`). -/
structure Answer : Type where
  id : ℤ
  title : String

/-- `src/data/Question.py` class `Question` (dataclass fields). -/
structure Question : Type where
  id : ℤ
  title : String
  type : ℤ
  answers : List Answer
  right_answer : Option String
  stage_id : Option ℤ

/-- The runtime values a comparison's `other: object` parameter can take in
this program. -/
inductive PyObj : Type where
  | question : Question → PyObj
  | answer : Answer → PyObj

/-- `Question.__lt__`: `isinstance(other, Answer) and self.id < other.id` —
note the guard tests for `Answer`, not `Question`. -/
def Question.lt (self : Question) (other : PyObj) : Bool :=
  match other with
  | .answer a => decide (self.id < a.id)
  | _ => false

/-- `Question.__eq__`: `isinstance(other, Answer) and self.id == other.id`. -/
def Question.eq (self : Question) (other : PyObj) : Bool :=
  match other with
  | .answer a => decide (self.id = a.id)
  | _ => false

/-- Stable insertion into a sorted prefix, modelling where CPython's stable
ascending sort places an element: before the first element `y` with
`lt x y`, after everything else. -/
def pyInsert (lt : α → α → Bool) (x : α) : List α → List α
  | [] => [x]
  | y :: ys => if lt x y then x :: y :: ys else y :: pyInsert lt x ys

/-- Python `sorted(l)`: a stable ascending sort driven solely by `__lt__`
(modelled as stable insertion sort, which has the same observable result). -/
def pySorted (lt : α → α → Bool) (l : List α) : List α :=
  l.foldl (fun acc x => pyInsert lt x acc) []

/-- The scheduler state shared between `AutoTrainer.watch` (running on the
submitting thread) and the `AutoTrainer._watch` workers.
`nowJobs` is the field `self._now_jobs`; `launched` counts worker threads
on which `thread.start()` has run but which have not yet executed their
first statement `self._now_jobs += 1`; `running` counts workers past that
increment but before the `finally` decrement. -/
structure SchedState : Type where
  nowJobs : ℤ
  launched : ℕ
  running : ℕ

/-- Interleaved small-step semantics of the scheduler.
`submit` is `AutoTrainer.watch` observing `self._now_jobs < self.max_jobs`
(the exit condition of its polling loop) and calling `thread.start()`;
`workerBegin` is a launched worker executing `self._now_jobs += 1`;
`workerEnd` is a worker executing the `finally: self._now_jobs -= 1`. -/
inductive SchedStep (maxJobs : ℤ) : SchedState → SchedState → Prop where
  | submit : ∀ s : SchedState, s.nowJobs < maxJobs →
      SchedStep maxJobs s ⟨s.nowJobs, s.launched + 1, s.running⟩
  | workerBegin : ∀ (s : SchedState) (n : ℕ), s.launched = n + 1 →
      SchedStep maxJobs s ⟨s.nowJobs + 1, n, s.running + 1⟩
  | workerEnd : ∀ (s : SchedState) (n : ℕ), s.running = n + 1 →
      SchedStep maxJobs s ⟨s.nowJobs - 1, s.launched, n⟩

/-- States reachable from the initial scheduler state
(`self._now_jobs = 0`, no worker threads). -/
inductive SchedReachable (maxJobs : ℤ) : SchedState → Prop where
  | init : SchedReachable maxJobs ⟨0, 0, 0⟩
  | step : ∀ s t : SchedState, SchedReachable maxJobs s → SchedStep maxJobs s t →
      SchedReachable maxJobs t

/-- Exceptions that can be raised inside the `try` block of
`AutoTrainer._watch`. -/
inductive WatchExc : Type where
  | valueError : WatchExc              -- int() on a malformed field, or range() step 0
  | apiError (e : SendExc) : WatchExc  -- propagated from api.set_resource_progress

/-- The contents written to a job's own status line by `AutoTrainer._watch`
(the Chinese message templates of the source, keyed by their dynamic data). -/
inductive LineMsg : Type where
  | preparing (rid : ℤ) : LineMsg             -- 正在准备
  | watching (rid : ℤ) (now : ℤ) : LineMsg    -- 正在观看 ...
  | finishing (rid : ℤ) : LineMsg             -- 正在结束观看
  | completed (rid : ℤ) : LineMsg             -- 已完成
  | failed (rid : ℤ) (e : WatchExc) : LineMsg -- 发生了意外错误 ...

/-- Number of iterations of Python `range(start, total, step)` for a
positive step. -/
def rangeLen (start total step : ℤ) : ℕ :=
  (((total - start) + step - 1) / step).toNat

/-- The reporting loop of `_watch` (`for now in range(start, total,
self._report_interval)`), one `api.set_resource_progress` call per
iteration.  `api i` is the outcome of the i-th progress call (`some e`
models a raised exception); `jit` models `Randomness.about` (applied except
on the very first tick); each iteration overwrites the job's line before
calling the api.  Returns the next api-call index and the line content. -/
def watchLoop (api : ℕ → Option SendExc) (jit : ℤ → ℤ) (rid start step : ℤ) :
    ℕ → ℕ → LineMsg → Except WatchExc (ℕ × LineMsg)
  | 0, i, line => .ok (i, line)
  | k + 1, i, _line =>
    let now0 := start + step * i
    let noww := if now0 ≠ start then jit now0 else now0
    match api i with
    | some e => .error (.apiError e)
    | none => watchLoop api jit rid start step k (i + 1) (.watching rid noww)

/-- The finishing loop of `_watch`
(`for _ in range(AutoTrainer.FINISHING_REPORT_TIMES)`), reporting the total
duration. -/
def finishLoop (api : ℕ → Option SendExc) : ℕ → ℕ → Except WatchExc Unit
  | 0, _ => .ok ()
  | k + 1, i =>
    match api i with
    | some e => .error (.apiError e)
    | none => finishLoop api k (i + 1)

/-- The `try` block of `AutoTrainer._watch`: parse the two `HH:MM:SS`
offsets (a `ValueError` from `int()` propagates), run the reporting loop
(`range` with step 0 raises `ValueError`), then the finishing reports, then
write the completion message. -/
def watchBody (api : ℕ → Option SendExc) (jit : ℤ → ℤ) (rid : ℤ)
    (start_time total_time : List Char) (interval : ℤ) : Except WatchExc LineMsg :=
  match hhmmss_to_second start_time with
  | none => .error .valueError
  | some start =>
    match hhmmss_to_second total_time with
    | none => .error .valueError
    | some total =>
      if interval = 0 then .error .valueError
      else
        match watchLoop api jit rid start interval
            (rangeLen start total interval) 0 (.preparing rid) with
        | .error e => .error e
        | .ok (calls, _) =>
          match finishLoop api 2 calls with
          | .error e => .error e
          | .ok _ => .ok (.completed rid)

/-- `AutoTrainer._watch` as a whole: `self._now_jobs += 1`, then the `try`
block, with `except BaseException` writing the failure to the job's own
line and `finally` decrementing `self._now_jobs`.  Returns the final value
of `self._now_jobs` and the final content of the job's line. -/
def watchWorker (api : ℕ → Option SendExc) (jit : ℤ → ℤ) (rid : ℤ)
    (start_time total_time : List Char) (interval : ℤ) (now_jobs : ℤ) :
    ℤ × LineMsg :=
  let nj := now_jobs + 1
  let line :=
    match watchBody api jit rid start_time total_time interval with
    | .ok l => l
    | .error e => .failed rid e
  (nj - 1, line)

/-- C10: the HH:MM:SS-to-seconds conversion returns 0 for an empty (falsy)
input string without raising, so an absent start offset means starting at
second 0. -/
theorem hhmmss_to_second_empty : hhmmss_to_second [] = some 0 := rfl

/-- C3: with a retry budget of 3, a transport that raises an `IOError` on
the first two attempts and returns a success-code envelope on the third
makes `_send` return the payload after exactly 3 attempts; a transport that
always raises makes exactly 3 attempts and then the retries-exhausted
`RuntimeError` is raised. -/
theorem send_retry_budget :
    send (fun i => if i < 2 then .ioError
        else .response 200 (some (.dict [("code", .int 99999), ("data", .str ("ok"))])))
      3 false = (.ok (some (.str ("ok"))), 3) ∧
    send (fun _ => .ioError) 3 false = (.error .maxRetriesExceeded, 3) :=
  ⟨rfl, rfl⟩

/-- C2 counterexample: with a retry budget of 3, a transport whose response
has HTTP status 500 makes `_send` raise the `RuntimeError` for the status
after exactly ONE attempt — it is not retried — whereas a genuine
network/timeout `IOError` under the same budget is retried 3 times and ends
in the retries-exhausted error. -/
theorem send_non200_counterexample :
    send (fun _ => .response 500 none) 3 false = (.error (.httpStatusError 500), 1) ∧
    send (fun _ => .ioError) 3 false = (.error .maxRetriesExceeded, 3) :=
  ⟨rfl, rfl⟩

/-- C2 (amended): a response whose HTTP status is not 200 makes `_send`
raise `RuntimeError("HTTP status code ...")` immediately on that first
attempt; the retry loop catches only `IOError`, so a non-200 status is a
non-retryable condition, for every retry budget. -/
theorem send_non200_no_retry (t : ℕ → TransportResult) (mr status : ℕ)
    (body : Option JsonVal) (h1 : t 0 = .response status body) (h2 : status ≠ 200) :
    send t mr false = (.error (.httpStatusError status), 1) := by
  have hm : max 1 mr = (max 1 mr - 1) + 1 := by omega
  rw [send, hm]
  simp only [sendLoop]
  rw [h1]
  simp only [sendAttempt, if_pos h2]

/-- Witness for `send_non200_no_retry` at a concrete transport. -/
theorem send_non200_no_retry_witness :
    send (fun _ => .response 404 none) 3 false = (.error (.httpStatusError 404), 1) :=
  send_non200_no_retry (fun _ => .response 404 none) 3 404 none rfl (by decide)

/-- C6: for an HTTP-200 response whose envelope is a dict with an integer
`code`, `_send` finishes after exactly one attempt (no retry, whatever the
budget) and maps the code to exactly one of the four outcomes: 99999
returns the `data` payload, 10002 raises `PermissionError`, 10003 raises
`UnauthorizedError`, and any other code raises `InvalidRequestError`
carrying the code and the optional (truthy) message. -/
theorem send_code_dispatch (t : ℕ → TransportResult)
    (fields : List (String × JsonVal)) (c : ℤ) (mr : ℕ)
    (h1 : t 0 = .response 200 (some (.dict fields)))
    (h2 : dictGet fields ("code") = some (.int c)) :
    send t mr false =
      (if c = 99999 then .ok (dictGet fields ("data"))
       else if c = 10002 then
         .error (.permissionError ((dictGet fields ("msg")).getD (.str ("No permission"))))
       else if c = 10003 then
         .error (.unauthorizedError ((dictGet fields ("msg")).getD (.str ("Unauthorized request"))))
       else .error (.invalidRequestError c (truthyMsg fields)), 1) := by
  have hm : max 1 mr = (max 1 mr - 1) + 1 := by omega
  rw [send, hm]
  simp only [sendLoop]
  rw [h1]
  simp only [sendAttempt, h2]
  norm_num

/-- Witness for `send_code_dispatch`: code 10003 raises `Unauthorized` on
the sole attempt even with budget 5. -/
theorem send_code_dispatch_witness :
    send (fun _ => .response 200 (some (.dict [("code", .int 10003)]))) 5 false =
      (.error (.unauthorizedError (.str ("Unauthorized request"))), 1) :=
  (send_code_dispatch (fun _ => .response 200 (some (.dict [("code", .int 10003)])))
    [("code", .int 10003)] 10003 5 rfl rfl).trans (by rfl)

/-- With a comparison that never holds, stable insertion appends at the
end. -/
lemma pyInsert_of_false (lt : α → α → Bool) (h : ∀ a b, lt a b = false)
    (x : α) (l : List α) : pyInsert lt x l = l ++ [x] := by
  induction l with
  | nil => rfl
  | cons y ys ih => simp [pyInsert, h, ih]

/-- A stable sort driven by a comparison that never holds returns its input
unchanged. -/
lemma pySorted_of_false (lt : α → α → Bool) (h : ∀ a b, lt a b = false)
    (l : List α) : pySorted lt l = l := by
  suffices H : ∀ acc, List.foldl (fun acc x => pyInsert lt x acc) acc l = acc ++ l by
    simpa using H []
  induction l with
  | nil => intro acc; simp
  | cons y ys ih =>
    intro acc
    have hstep : List.foldl (fun acc x => pyInsert lt x acc) acc (y :: ys)
        = List.foldl (fun acc x => pyInsert lt x acc) (pyInsert lt y acc) ys := rfl
    rw [hstep, ih, pyInsert_of_false lt h]
    simp

/-- C9: `Question.__eq__` and `Question.__lt__` test `isinstance(other,
Answer)`, which a `Question` operand never satisfies, so comparing two
questions always yields `False` for both; consequently `sorted` on any list
of questions returns it in its original order. -/
theorem question_compare_all_false (q1 q2 : Question) (l : List Question) :
    Question.eq q1 (.question q2) = false ∧
    Question.lt q1 (.question q2) = false ∧
    pySorted (fun a b : Question => Question.lt a (.question b)) l = l :=
  ⟨rfl, rfl, pySorted_of_false _ (fun _ _ => rfl) l⟩

/-- C1: with `max_jobs = 1` the scheduler reaches a state where
`_now_jobs = 2 > max_jobs`.  The schedule: the submitter passes the
admission check twice (both times observing `_now_jobs = 0`, since the
increment is executed by the worker thread only after `thread.start()`),
then both launched workers execute `self._now_jobs += 1`. -/
theorem now_jobs_exceeds_max_jobs : SchedReachable 1 ⟨2, 0, 2⟩ := by
  have h0 : SchedReachable 1 ⟨0, 0, 0⟩ := SchedReachable.init
  have s1 : SchedStep 1 ⟨0, 0, 0⟩ ⟨0, 1, 0⟩ := SchedStep.submit ⟨0, 0, 0⟩ (by norm_num)
  have h1 : SchedReachable 1 ⟨0, 1, 0⟩ := SchedReachable.step _ _ h0 s1
  have s2 : SchedStep 1 ⟨0, 1, 0⟩ ⟨0, 2, 0⟩ := SchedStep.submit ⟨0, 1, 0⟩ (by norm_num)
  have h2 : SchedReachable 1 ⟨0, 2, 0⟩ := SchedReachable.step _ _ h1 s2
  have s3 : SchedStep 1 ⟨0, 2, 0⟩ ⟨1, 1, 1⟩ := SchedStep.workerBegin ⟨0, 2, 0⟩ 1 rfl
  have h3 : SchedReachable 1 ⟨1, 1, 1⟩ := SchedReachable.step _ _ h2 s3
  have s4 : SchedStep 1 ⟨1, 1, 1⟩ ⟨2, 0, 2⟩ := SchedStep.workerBegin ⟨1, 1, 1⟩ 0 rfl
  exact SchedReachable.step _ _ h3 s4

/-- A successful run of the `try` block of `_watch` always ends with the
completion message on the job's line. -/
lemma watchBody_ok_completed (api : ℕ → Option SendExc) (jit : ℤ → ℤ) (rid : ℤ)
    (st tt : List Char) (interval : ℤ) (l : LineMsg)
    (h : watchBody api jit rid st tt interval = .ok l) : l = .completed rid := by
  unfold watchBody at h
  split at h
  · exact absurd h (by simp)
  split at h
  · exact absurd h (by simp)
  split at h
  · exact absurd h (by simp)
  split at h
  · exact absurd h (by simp)
  split at h
  · exact absurd h (by simp)
  · injection h with h2
    exact h2.symm

/-- C7: whatever the api-call outcomes and inputs, the worker body of
`AutoTrainer._watch` returns normally (every exception is caught at the
worker boundary): the job's own line ends either with the completion
message or with the error message for the raised exception, and
`_now_jobs` comes back to its entry value on every exit path (the
increment/decrement pair nets to zero). -/
theorem watch_worker_isolated (api : ℕ → Option SendExc) (jit : ℤ → ℤ) (rid : ℤ)
    (start_time total_time : List Char) (interval : ℤ) (now_jobs : ℤ) :
    (watchWorker api jit rid start_time total_time interval now_jobs).1 = now_jobs ∧
    ((watchWorker api jit rid start_time total_time interval now_jobs).2 = .completed rid ∨
      ∃ e, (watchWorker api jit rid start_time total_time interval now_jobs).2
        = .failed rid e) := by
  constructor
  · show now_jobs + 1 - 1 = now_jobs
    ring
  · cases hb : watchBody api jit rid start_time total_time interval with
    | ok l =>
      left
      have hl := watchBody_ok_completed api jit rid start_time total_time interval l hb
      simp [watchWorker, hb, hl]
    | error e =>
      right
      exact ⟨e, by simp [watchWorker, hb]⟩

/-- Looking up the key just added at the front of a dict. -/
lemma dictGet_cons_self (k : String) (v : JsonVal) (rest : List (String × JsonVal)) :
    dictGet ((k, v) :: rest) k = some v := by
  simp [dictGet, List.lookup]

/-- One `_fetch_pagination` iteration on a full page recurses with the page
appended and the call counted. -/
lemma fetchLoop_step_full (send1 : ℕ → Except SendExc (Option JsonVal))
    (ps fuel pn : ℕ) (rst li : List JsonVal) (fields : List (String × JsonVal))
    (h1 : send1 pn = .ok (some (.dict fields)))
    (h2 : dictGet fields ("list") = some (.list li))
    (hlen : ps ≤ li.length) :
    fetchLoop send1 ps (fuel + 1) pn rst =
      ((fetchLoop send1 ps fuel (pn + 1) (rst ++ li)).1,
        (fetchLoop send1 ps fuel (pn + 1) (rst ++ li)).2 + 1) := by
  simp only [fetchLoop, h1, h2]
  rw [if_neg (by omega)]

/-- `_fetch_pagination` breaks out (returning the accumulator unchanged)
when the `list` field holds a non-list value. -/
lemma fetchLoop_nonlist (send1 : ℕ → Except SendExc (Option JsonVal))
    (ps fuel pn : ℕ) (rst : List JsonVal) (fields : List (String × JsonVal)) (v : JsonVal)
    (h1 : send1 pn = .ok (some (.dict fields)))
    (h2 : dictGet fields ("list") = some v)
    (h3 : ∀ xs, v ≠ .list xs) (hf : 1 ≤ fuel) :
    fetchLoop send1 ps fuel pn rst = (.ok rst, 1) := by
  obtain ⟨f, rfl⟩ : ∃ f, fuel = f + 1 := ⟨fuel - 1, by omega⟩
  simp only [fetchLoop, h1, h2]

/-- `_fetch_pagination` raises `KeyError` when the envelope has no `list`
key (`li = d["list"]`). -/
lemma fetchLoop_keyError (send1 : ℕ → Except SendExc (Option JsonVal))
    (ps fuel pn : ℕ) (rst : List JsonVal) (fields : List (String × JsonVal))
    (h1 : send1 pn = .ok (some (.dict fields)))
    (h2 : dictGet fields ("list") = none) (hf : 1 ≤ fuel) :
    fetchLoop send1 ps fuel pn rst = (.error .keyError, 1) := by
  obtain ⟨f, rfl⟩ : ∃ f, fuel = f + 1 := ⟨fuel - 1, by omega⟩
  simp only [fetchLoop, h1, h2]

/-- The fetch loop over a remote serving `pages`: pages `pn .. pn+k-1` are
full, page `pn+k` is short, so the loop makes exactly `k+1` calls and
accumulates all `k+1` pages. -/
lemma fetchLoop_pages (pages : ℕ → List JsonVal) (ps : ℕ) :
    ∀ (k fuel pn : ℕ) (rst : List JsonVal),
      (∀ i : ℕ, i < k → ps ≤ (pages (pn + i)).length) →
      (pages (pn + k)).length < ps →
      k + 1 ≤ fuel →
      fetchLoop (remoteOf pages) ps fuel pn rst =
        (.ok (rst ++ pagesConcat pages pn (k + 1)), k + 1) := by
  intro k
  induction k with
  | zero =>
    intro fuel pn rst _ hlast hf
    obtain ⟨f, rfl⟩ : ∃ f, fuel = f + 1 := ⟨fuel - 1, by omega⟩
    simp only [fetchLoop, remoteOf, dictGet_cons_self]
    rw [if_pos (by simpa using hlast)]
    simp [pagesConcat]
  | succ k ih =>
    intro fuel pn rst hfull hlast hf
    obtain ⟨f, rfl⟩ : ∃ f, fuel = f + 1 := ⟨fuel - 1, by omega⟩
    have h0 : ps ≤ (pages pn).length := by simpa using hfull 0 (by omega)
    have hfull2 : ∀ i : ℕ, i < k → ps ≤ (pages (pn + 1 + i)).length := by
      intro i hi
      have h := hfull (i + 1) (by omega)
      have e : pn + (i + 1) = pn + 1 + i := by omega
      rwa [e] at h
    have hlast2 : (pages (pn + 1 + k)).length < ps := by
      have e : pn + (k + 1) = pn + 1 + k := by omega
      rwa [e] at hlast
    have hrec := ih f (pn + 1) (rst ++ pages pn) hfull2 hlast2 (by omega)
    simp only [fetchLoop, remoteOf, dictGet_cons_self]
    rw [if_neg (by omega)]
    rw [hrec]
    simp [pagesConcat]

/-- C5: the paginated fetch calls the remote with `pageNum = 1, 2, ...`;
if the first `k` pages are full (at least `page_size` items) and page
`k+1` is short, it makes exactly `k+1` calls and returns the concatenation
of pages `1 .. k+1`, stopping exactly at the first short page (within the
`max_page_num` guard). -/
theorem fetch_pagination_accumulates (pages : ℕ → List JsonVal)
    (page_size k max_page_num : ℕ)
    (hfull : ∀ i : ℕ, i < k → page_size ≤ (pages (1 + i)).length)
    (hlast : (pages (1 + k)).length < page_size)
    (hmax : k + 1 ≤ max_page_num) :
    fetch_pagination (remoteOf pages) page_size max_page_num =
      (.ok (pagesConcat pages 1 (k + 1)), k + 1) := by
  have h := fetchLoop_pages pages page_size k max_page_num 1 [] hfull hlast hmax
  simpa [fetch_pagination] using h

/-- A concrete remote serving pages of sizes 10, 10, 10, 4. -/
def pages4 : ℕ → List JsonVal :=
  fun pn =>
    if pn ≤ 3 then (List.range 10).map (fun j => .int ((10 : ℤ) * pn + j))
    else if pn = 4 then (List.range 4).map (fun j => .int (30 + (j : ℤ)))
    else []

/-- Witness for `fetch_pagination_accumulates`: page sizes
`[10, 10, 10, 4]` with `page_size = 10` give 34 accumulated items in
exactly 4 calls. -/
theorem fetch_pagination_accumulates_witness :
    fetch_pagination (remoteOf pages4) 10 1024 = (.ok (pagesConcat pages4 1 4), 4) ∧
    (pagesConcat pages4 1 4).length = 34 :=
  ⟨fetch_pagination_accumulates pages4 10 3 1024 (by decide) (by decide) (by decide),
    by decide⟩

/-- C4 counterexample: a page whose envelope lacks the `list` field makes
`_fetch_pagination` raise `KeyError` on the subscript `d["list"]` rather
than stop gracefully with the items accumulated so far. -/
theorem fetch_missing_field_raises :
    fetch_pagination (fun _ => .ok (some (.dict []))) 10 1024 = (.error .keyError, 1) :=
  rfl

/-- C4 (amended): if a page's `list` field is present but holds a non-list
value, the fetch stops gracefully and returns the items accumulated so far;
if the `list` field is absent, the fetch raises `KeyError` instead. -/
theorem fetch_pagination_defensive_stop
    (send1 sendB : ℕ → Except SendExc (Option JsonVal))
    (li : List JsonVal) (v : JsonVal) (fields : List (String × JsonVal))
    (page_size max_page_num : ℕ)
    (h1 : send1 1 = .ok (some (.dict [("list", .list li)])))
    (h2 : send1 2 = .ok (some (.dict [("list", v)])))
    (hlen : page_size ≤ li.length)
    (hv : ∀ xs, v ≠ .list xs)
    (hmax : 2 ≤ max_page_num)
    (hB : sendB 1 = .ok (some (.dict fields)))
    (hBnone : dictGet fields ("list") = none) :
    fetch_pagination send1 page_size max_page_num = (.ok li, 2) ∧
    fetch_pagination sendB page_size max_page_num = (.error .keyError, 1) := by
  constructor
  · obtain ⟨f, rfl⟩ : ∃ f, max_page_num = f + 1 + 1 := ⟨max_page_num - 2, by omega⟩
    rw [fetch_pagination]
    rw [fetchLoop_step_full send1 page_size (f + 1) 1 [] li _ h1 (dictGet_cons_self _ _ _) hlen]
    rw [fetchLoop_nonlist send1 page_size (f + 1) 2 ([] ++ li) [("list", v)] v h2
      (dictGet_cons_self _ _ _) hv (by omega)]
    simp
  · rw [fetch_pagination]
    exact fetchLoop_keyError sendB page_size max_page_num 1 [] fields hB hBnone (by omega)

/-- A page of ten items, for the witness below. -/
def li10 : List JsonVal := (List.range 10).map (fun j => .int (j : ℤ))

/-- A remote whose second page has `"list"` bound to a non-list value. -/
def sendNonList : ℕ → Except SendExc (Option JsonVal) :=
  fun pn =>
    if pn = 1 then .ok (some (.dict [("list", .list li10)]))
    else .ok (some (.dict [("list", .int 5)]))

/-- A remote whose envelope has no `list` key at all. -/
def sendMissing : ℕ → Except SendExc (Option JsonVal) :=
  fun _ => .ok (some (.dict [("id", .int 7)]))

/-- Witness for `fetch_pagination_defensive_stop`. -/
theorem fetch_pagination_defensive_stop_witness :
    fetch_pagination sendNonList 10 1024 = (.ok li10, 2) ∧
    fetch_pagination sendMissing 10 1024 = (.error .keyError, 1) :=
  fetch_pagination_defensive_stop sendNonList sendMissing li10 (.int 5) [("id", .int 7)]
    10 1024 rfl rfl (by decide) (fun xs h => JsonVal.noConfusion h) (by decide) rfl rfl

/-- `str.split` never returns an empty list of groups. -/
lemma pySplit_ne_nil (sep : Char) (l : List Char) : pySplit sep l ≠ [] := by
  cases l with
  | nil => simp [pySplit]
  | cons c rest =>
    simp only [pySplit]
    split
    · simp
    · split <;> simp

/-- Splitting a string that does not contain the separator yields the
one-element group list. -/
lemma pySplit_not_mem (sep : Char) (A : List Char) (h : sep ∉ A) :
    pySplit sep A = [A] := by
  induction A with
  | nil => rfl
  | cons c rest ih =>
    have hc : ¬(c = sep) := fun e => h (by simp [e])
    have hr : sep ∉ rest := fun m => h (List.mem_cons_of_mem c m)
    simp only [pySplit, if_neg hc, ih hr]

/-- Splitting peels off a separator-free chunk before the first
separator. -/
lemma pySplit_append (sep : Char) (A rest : List Char) (h : sep ∉ A) :
    pySplit sep (A ++ sep :: rest) = A :: pySplit sep rest := by
  induction A with
  | nil => simp [pySplit]
  | cons c A ih =>
    have hc : ¬(c = sep) := fun e => h (by simp [e])
    have hA : sep ∉ A := fun m => h (List.mem_cons_of_mem c m)
    simp only [List.cons_append, pySplit, if_neg hc, List.append_eq, ih hA]

/-- For `n < 100` the two-digit rendering contains no colon and parses back
to `n`. -/
lemma fmt02_spec : ∀ n : ℕ, n < 100 →
    (':' ∉ fmt02 n) ∧ pyInt (fmt02 n) = some (n : ℤ) := by decide

/-- `[a, b, c].take 3` is the identity. -/
lemma take3_triple (a b c : α) : List.take 3 [a, b, c] = [a, b, c] := rfl

/-- Round trip on the three split components. -/
lemma hhmmss_components (h m s : ℕ) (hh : h < 100) (hm : m < 100) (hs : s < 100) :
    hhmmss_to_second (fmt02 h ++ ':' :: (fmt02 m ++ ':' :: fmt02 s)) =
      some ((3600 : ℤ) * h + 60 * m + s) := by
  obtain ⟨h1, h2⟩ := fmt02_spec h hh
  obtain ⟨m1, m2⟩ := fmt02_spec m hm
  obtain ⟨s1, s2⟩ := fmt02_spec s hs
  have hne : ¬(fmt02 h ++ ':' :: (fmt02 m ++ ':' :: fmt02 s) = []) := by
    cases hfh : fmt02 h <;> simp [hfh]
  rw [hhmmss_to_second, if_neg hne]
  rw [pySplit_append ':' (fmt02 h) _ h1]
  rw [pySplit_append ':' (fmt02 m) _ m1]
  rw [pySplit_not_mem ':' (fmt02 s) s1]
  rw [take3_triple]
  simp only [parseFields, h2, m2, s2]
  simp only [List.zip_cons_cons, List.zip_nil_right, List.map_cons, List.map_nil,
    List.sum_cons, List.sum_nil]
  congr 1
  ring

/-- C8: for every number of seconds `s < 86400`, rendering `s` as
`HH:MM:SS` and parsing the string back yields `s`; and parsing
`"00:00:00"` yields 0. -/
theorem hhmmss_roundtrip :
    (∀ s : ℕ, s < 86400 →
      hhmmss_to_second (second_to_hhmmss s) = some (s : ℤ)) ∧
    hhmmss_to_second ['0', '0', ':', '0', '0', ':', '0', '0'] = some 0 := by
  constructor
  · intro s hs
    rw [second_to_hhmmss]
    rw [hhmmss_components (s / 3600) (s % 3600 / 60) (s % 60)
      (by omega) (by omega) (by omega)]
    congr 1
    omega
  · rfl

/-- Witness for `hhmmss_roundtrip` at 3723 seconds (01:02:03). -/
theorem hhmmss_roundtrip_witness :
    hhmmss_to_second (second_to_hhmmss 3723) = some 3723 ∧
    second_to_hhmmss 3723 = ['0', '1', ':', '0', '2', ':', '0', '3'] :=
  ⟨hhmmss_roundtrip.1 3723 (by decide), by decide⟩
